import Mathlib

/-
Verification of the dpsl.diagnostics proxy layer (diagnostics_manager.js).

The library forwards every operation to the external chrome.os.diagnostics
API after a runtime capability check, and wraps run-routine responses in a
Routine handle.  We embed the JavaScript semantics shallowly:

  * JsVal models the JavaScript values the code manipulates (truthiness,
    property access, typeof checks);
  * the external API is a DiagnosticsApi: the chrome global object plus a
    backend response function; every issued external call is recorded in a
    trace (List ExtCall), and each asynchronous operation is a pure function
    returning the trace of external calls it issued together with its
    settled Outcome (resolved value or rejection value);
  * method calls on the mutable Routine object are translated in
    state-passing style: each handle operation receives the current handle
    and returns the handle state after the call (the source never assigns
    to this.id, so the returned state equals the input state).

Two source variants exist: the capability-checked one
(src/diagnostics_manager.js, embedded at top level) and the unchecked one
(the unnamed module, embedded under the V2 prefix).
-/

/-- JavaScript values as manipulated by the proxy layer: undefined, null,
booleans, numbers, strings, function values (named, behavior supplied by the
backend model), and plain objects as association lists of fields. -/
inductive JsVal : Type where
  | undefined : JsVal
  | null : JsVal
  | boolean : Bool → JsVal
  | num : Int → JsVal
  | str : String → JsVal
  | fn : String → JsVal
  | obj : List (String × JsVal) → JsVal

/-- JavaScript ToBoolean on the embedded values. -/
def jsTruthy : JsVal → Bool
  | JsVal.undefined => false
  | JsVal.null => false
  | JsVal.boolean b => b
  | JsVal.num n => n != 0
  | JsVal.str s => s != ""
  | JsVal.fn _ => true
  | JsVal.obj _ => true

/-- The JavaScript test (typeof v === "function"). -/
def isFunction : JsVal → Bool
  | JsVal.fn _ => true
  | _ => false

/-- JavaScript error values observable from this layer: new Error(message)
raised locally, and native TypeError raised by property access on
undefined/null or by calling a non-function. -/
inductive JsError : Type where
  | error : String → JsError
  | typeError : String → JsError

/-- Settled state of a JavaScript promise: resolved with a value or rejected
with an error value. -/
inductive Outcome (α : Type) : Type where
  | resolved : α → Outcome α
  | rejected : JsError → Outcome α

/-- JavaScript property access v[name]: throws TypeError on undefined/null,
yields undefined on other primitives, looks the field up on objects. -/
def getProp : JsVal → String → Except JsError JsVal
  | JsVal.undefined, n =>
      Except.error (JsError.typeError
        ("Cannot read properties of undefined (reading " ++ n ++ ")"))
  | JsVal.null, n =>
      Except.error (JsError.typeError
        ("Cannot read properties of null (reading " ++ n ++ ")"))
  | JsVal.obj fields, n => Except.ok ((fields.lookup n).getD JsVal.undefined)
  | _, _ => Except.ok JsVal.undefined

/-- One call issued to the external chrome.os.diagnostics API: the entry
point name and the argument list. -/
structure ExtCall : Type where
  name : String
  args : List JsVal

/-- The environment a dpsl operation runs against: the fields of the global
chrome object (so chrome itself is always an object, while chrome.os and
everything below it may be absent or of any shape), and the backend behavior
of the external entry points when they are actually invoked. -/
structure DiagnosticsApi : Type where
  chromeFields : List (String × JsVal)
  respond : ExtCall → Outcome JsVal

/-- The chrome global value of an environment. -/
def DiagnosticsApi.chrome (api : DiagnosticsApi) : JsVal :=
  JsVal.obj api.chromeFields

/-- Evaluation of the expression chrome.os.diagnostics[functionName]
(without calling it): any step may throw on undefined/null. -/
def lookupEntryPoint (chrome : JsVal) (functionName : String) :
    Except JsError JsVal :=
  match getProp chrome "os" with
  | Except.error e => Except.error e
  | Except.ok os =>
    match getProp os "diagnostics" with
    | Except.error e => Except.error e
    | Except.ok diagnostics => getProp diagnostics functionName

/-- Evaluation of chrome.os.diagnostics.functionName(args) inside an async
function: a throw during lookup or a call of a non-function value becomes a
rejection and the backend is never invoked; otherwise exactly one external
call is issued and the backend outcome is adopted. -/
def callEntryPoint (api : DiagnosticsApi) (functionName : String)
    (args : List JsVal) : List ExtCall × Outcome JsVal :=
  match lookupEntryPoint api.chrome functionName with
  | Except.error e => ([], Outcome.rejected e)
  | Except.ok f =>
    if isFunction f then
      ([⟨functionName, args⟩], api.respond ⟨functionName, args⟩)
    else
      ([], Outcome.rejected (JsError.typeError
        ("chrome.os.diagnostics." ++ functionName ++ " is not a function")))

/-- Embedding of isSupported(functionName): the short-circuit conjunction
chrome.os && chrome.os.diagnostics && chrome.os.diagnostics[functionName] &&
(typeof chrome.os.diagnostics[functionName] === "function").  A falsy
intermediate value is returned as-is (JavaScript && yields its first falsy
operand); property access may in principle throw, hence the Except. -/
def isSupported (chrome : JsVal) (functionName : String) :
    Except JsError JsVal :=
  match getProp chrome "os" with
  | Except.error e => Except.error e
  | Except.ok os =>
    if jsTruthy os then
      match getProp os "diagnostics" with
      | Except.error e => Except.error e
      | Except.ok diagnostics =>
        if jsTruthy diagnostics then
          match getProp diagnostics functionName with
          | Except.error e => Except.error e
          | Except.ok f =>
            if jsTruthy f then Except.ok (JsVal.boolean (isFunction f))
            else Except.ok f
        else Except.ok diagnostics
    else Except.ok os

/-- Embedding of getErrorMessage(functionName). -/
def getErrorMessage (functionName : String) : String :=
  "DPSL: chrome.os.diagnostics." ++ functionName ++ "() is not found." ++
    " Consider updating Google Chrome."

/-- Boolean reading of the capability probe in an environment: true exactly
when isSupported evaluates to a truthy value. -/
def supportedOn (api : DiagnosticsApi) (functionName : String) : Bool :=
  match isSupported api.chrome functionName with
  | Except.ok v => jsTruthy v
  | Except.error _ => false

/-- The dpsl Routine handle: holds the routine id assigned at construction
from the backend response (this.id = id). -/
structure Routine : Type where
  id : JsVal

/-- Trace and outcome of one routine run-method. -/
abbrev RunOutput : Type := List ExtCall × Outcome Routine

/-- Trace and outcome of one raw external call returning an unwrapped
backend value. -/
abbrev UpdateOutput : Type := List ExtCall × Outcome JsVal

/-- Embedding of .then((response) => new Routine(response.id)) applied to a
settled call: on resolution, read response.id (which may itself throw, e.g.
when the response is undefined) and wrap it; rejections pass through. -/
def thenNewRoutine : UpdateOutput → RunOutput
  | (trace, Outcome.resolved response) =>
    match getProp response "id" with
    | Except.ok idVal => (trace, Outcome.resolved ⟨idVal⟩)
    | Except.error e => (trace, Outcome.rejected e)
  | (trace, Outcome.rejected e) => (trace, Outcome.rejected e)

/-- The ROUTINE_COMMAND_TYPE constant object. -/
structure RoutineCommandType : Type where
  CANCEL : String
  REMOVE : String
  RESUME : String
  GET_STATUS : String

/-- ROUTINE_COMMAND_TYPE = {CANCEL: cancel, REMOVE: remove, RESUME: resume,
GET_STATUS: status}. -/
def ROUTINE_COMMAND_TYPE : RoutineCommandType :=
  ⟨"cancel", "remove", "resume", "status"⟩

/-- Embedding of Routine.prototype._getRoutineUpdate(command): builds the
request {id: this.id, command: command} and forwards it to the external
getRoutineUpdate entry point.  State-passing: the handle is returned
unchanged since the body never assigns to this. -/
def Routine._getRoutineUpdate (r : Routine) (api : DiagnosticsApi)
    (command : String) : Routine × UpdateOutput :=
  let request := JsVal.obj [("id", r.id), ("command", JsVal.str command)]
  (r, callEntryPoint api "getRoutineUpdate" [request])

/-- Embedding of Routine.prototype.getStatus(). -/
def Routine.getStatus (r : Routine) (api : DiagnosticsApi) :
    Routine × UpdateOutput :=
  r._getRoutineUpdate api ROUTINE_COMMAND_TYPE.GET_STATUS

/-- Embedding of Routine.prototype.resume(). -/
def Routine.resume (r : Routine) (api : DiagnosticsApi) :
    Routine × UpdateOutput :=
  r._getRoutineUpdate api ROUTINE_COMMAND_TYPE.RESUME

/-- Embedding of Routine.prototype.stop(): issues the cancel command without
awaiting it (its outcome is dropped), then issues the remove command and
returns that call's outcome. -/
def Routine.stop (r : Routine) (api : DiagnosticsApi) :
    Routine × UpdateOutput :=
  let cancelStep := r._getRoutineUpdate api ROUTINE_COMMAND_TYPE.CANCEL
  let removeStep := cancelStep.1._getRoutineUpdate api ROUTINE_COMMAND_TYPE.REMOVE
  (removeStep.1, (cancelStep.2.1 ++ removeStep.2.1, removeStep.2.2))

/-- Embedding of BatteryManager.prototype.runCapacityRoutine(). -/
def BatteryManager.runCapacityRoutine (api : DiagnosticsApi) : RunOutput :=
  let functionName := "runBatteryCapacityRoutine"
  match isSupported api.chrome functionName with
  | Except.error e => ([], Outcome.rejected e)
  | Except.ok sup =>
    if jsTruthy sup then
      thenNewRoutine (callEntryPoint api functionName [])
    else
      ([], Outcome.rejected (JsError.error (getErrorMessage functionName)))

/-- Embedding of BatteryManager.prototype.runHealthRoutine(). -/
def BatteryManager.runHealthRoutine (api : DiagnosticsApi) : RunOutput :=
  let functionName := "runBatteryHealthRoutine"
  match isSupported api.chrome functionName with
  | Except.error e => ([], Outcome.rejected e)
  | Except.ok sup =>
    if jsTruthy sup then
      thenNewRoutine (callEntryPoint api functionName [])
    else
      ([], Outcome.rejected (JsError.error (getErrorMessage functionName)))

/-- Embedding of BatteryManager.prototype.runDischargeRoutine(params). -/
def BatteryManager.runDischargeRoutine (api : DiagnosticsApi)
    (params : JsVal) : RunOutput :=
  let functionName := "runBatteryDischargeRoutine"
  match isSupported api.chrome functionName with
  | Except.error e => ([], Outcome.rejected e)
  | Except.ok sup =>
    if jsTruthy sup then
      thenNewRoutine (callEntryPoint api functionName [params])
    else
      ([], Outcome.rejected (JsError.error (getErrorMessage functionName)))

/-- Embedding of BatteryManager.prototype.runChargeRoutine(params). -/
def BatteryManager.runChargeRoutine (api : DiagnosticsApi)
    (params : JsVal) : RunOutput :=
  let functionName := "runBatteryChargeRoutine"
  match isSupported api.chrome functionName with
  | Except.error e => ([], Outcome.rejected e)
  | Except.ok sup =>
    if jsTruthy sup then
      thenNewRoutine (callEntryPoint api functionName [params])
    else
      ([], Outcome.rejected (JsError.error (getErrorMessage functionName)))

/-- Embedding of CpuManager.prototype.runCacheRoutine(params). -/
def CpuManager.runCacheRoutine (api : DiagnosticsApi)
    (params : JsVal) : RunOutput :=
  let functionName := "runCpuCacheRoutine"
  match isSupported api.chrome functionName with
  | Except.error e => ([], Outcome.rejected e)
  | Except.ok sup =>
    if jsTruthy sup then
      thenNewRoutine (callEntryPoint api functionName [params])
    else
      ([], Outcome.rejected (JsError.error (getErrorMessage functionName)))

/-- Embedding of CpuManager.prototype.runStressRoutine(params). -/
def CpuManager.runStressRoutine (api : DiagnosticsApi)
    (params : JsVal) : RunOutput :=
  let functionName := "runCpuStressRoutine"
  match isSupported api.chrome functionName with
  | Except.error e => ([], Outcome.rejected e)
  | Except.ok sup =>
    if jsTruthy sup then
      thenNewRoutine (callEntryPoint api functionName [params])
    else
      ([], Outcome.rejected (JsError.error (getErrorMessage functionName)))

/-- Embedding of CpuManager.prototype.runFloatingPointAccuracyRoutine(params). -/
def CpuManager.runFloatingPointAccuracyRoutine (api : DiagnosticsApi)
    (params : JsVal) : RunOutput :=
  let functionName := "runCpuFloatingPointAccuracyRoutine"
  match isSupported api.chrome functionName with
  | Except.error e => ([], Outcome.rejected e)
  | Except.ok sup =>
    if jsTruthy sup then
      thenNewRoutine (callEntryPoint api functionName [params])
    else
      ([], Outcome.rejected (JsError.error (getErrorMessage functionName)))

/-- Embedding of CpuManager.prototype.runPrimeSearchRoutine(params). -/
def CpuManager.runPrimeSearchRoutine (api : DiagnosticsApi)
    (params : JsVal) : RunOutput :=
  let functionName := "runCpuPrimeSearchRoutine"
  match isSupported api.chrome functionName with
  | Except.error e => ([], Outcome.rejected e)
  | Except.ok sup =>
    if jsTruthy sup then
      thenNewRoutine (callEntryPoint api functionName [params])
    else
      ([], Outcome.rejected (JsError.error (getErrorMessage functionName)))

/-- Embedding of MemoryManager.prototype.runMemoryRoutine(). -/
def MemoryManager.runMemoryRoutine (api : DiagnosticsApi) : RunOutput :=
  let functionName := "runMemoryRoutine"
  match isSupported api.chrome functionName with
  | Except.error e => ([], Outcome.rejected e)
  | Except.ok sup =>
    if jsTruthy sup then
      thenNewRoutine (callEntryPoint api functionName [])
    else
      ([], Outcome.rejected (JsError.error (getErrorMessage functionName)))

/-- Embedding of DiskManager.prototype.runReadRoutine(). -/
def DiskManager.runReadRoutine (api : DiagnosticsApi) : RunOutput :=
  let functionName := "runDiskReadRoutine"
  match isSupported api.chrome functionName with
  | Except.error e => ([], Outcome.rejected e)
  | Except.ok sup =>
    if jsTruthy sup then
      thenNewRoutine (callEntryPoint api functionName [])
    else
      ([], Outcome.rejected (JsError.error (getErrorMessage functionName)))

/-- Embedding of NvmeManager.prototype.runSmartctlCheckRoutine(). -/
def NvmeManager.runSmartctlCheckRoutine (api : DiagnosticsApi) : RunOutput :=
  let functionName := "runSmartctlCheckRoutine"
  match isSupported api.chrome functionName with
  | Except.error e => ([], Outcome.rejected e)
  | Except.ok sup =>
    if jsTruthy sup then
      thenNewRoutine (callEntryPoint api functionName [])
    else
      ([], Outcome.rejected (JsError.error (getErrorMessage functionName)))

/-- Embedding of NvmeManager.prototype.runWearLevelRoutine(params). -/
def NvmeManager.runWearLevelRoutine (api : DiagnosticsApi)
    (params : JsVal) : RunOutput :=
  let functionName := "runNvmeWearLevelRoutine"
  match isSupported api.chrome functionName with
  | Except.error e => ([], Outcome.rejected e)
  | Except.ok sup =>
    if jsTruthy sup then
      thenNewRoutine (callEntryPoint api functionName [params])
    else
      ([], Outcome.rejected (JsError.error (getErrorMessage functionName)))

/-- Embedding of DPSLDiagnosticsManager.prototype.getAvailableRoutines():
unlike the run-methods, the backend response is returned without wrapping. -/
def DPSLDiagnosticsManager.getAvailableRoutines (api : DiagnosticsApi) :
    UpdateOutput :=
  let functionName := "getAvailableRoutines"
  match isSupported api.chrome functionName with
  | Except.error e => ([], Outcome.rejected e)
  | Except.ok sup =>
    if jsTruthy sup then
      callEntryPoint api functionName []
    else
      ([], Outcome.rejected (JsError.error (getErrorMessage functionName)))

/-- The common shape of every capability-checked run-method (each method
above is definitionally this pattern at its own entry point and arguments);
used to state shared lemmas. -/
def checkedRun (api : DiagnosticsApi) (functionName : String)
    (args : List JsVal) : RunOutput :=
  match isSupported api.chrome functionName with
  | Except.error e => ([], Outcome.rejected e)
  | Except.ok sup =>
    if jsTruthy sup then
      thenNewRoutine (callEntryPoint api functionName args)
    else
      ([], Outcome.rejected (JsError.error (getErrorMessage functionName)))

/-- The common shape of every unchecked run-method of the second source
variant. -/
def uncheckedRun (api : DiagnosticsApi) (functionName : String)
    (args : List JsVal) : RunOutput :=
  thenNewRoutine (callEntryPoint api functionName args)

/-- Embedding of Routine.prototype._getRoutineUpdate of the unchecked source
variant (same body as the checked variant). -/
def V2.Routine._getRoutineUpdate (r : Routine) (api : DiagnosticsApi)
    (command : String) : Routine × UpdateOutput :=
  let request := JsVal.obj [("id", r.id), ("command", JsVal.str command)]
  (r, callEntryPoint api "getRoutineUpdate" [request])

/-- Embedding of Routine.prototype.getStatus of the unchecked variant. -/
def V2.Routine.getStatus (r : Routine) (api : DiagnosticsApi) :
    Routine × UpdateOutput :=
  V2.Routine._getRoutineUpdate r api ROUTINE_COMMAND_TYPE.GET_STATUS

/-- Embedding of Routine.prototype.resume of the unchecked variant. -/
def V2.Routine.resume (r : Routine) (api : DiagnosticsApi) :
    Routine × UpdateOutput :=
  V2.Routine._getRoutineUpdate r api ROUTINE_COMMAND_TYPE.RESUME

/-- Embedding of Routine.prototype.stop of the unchecked variant. -/
def V2.Routine.stop (r : Routine) (api : DiagnosticsApi) :
    Routine × UpdateOutput :=
  let cancelStep := V2.Routine._getRoutineUpdate r api ROUTINE_COMMAND_TYPE.CANCEL
  let removeStep := V2.Routine._getRoutineUpdate cancelStep.1 api ROUTINE_COMMAND_TYPE.REMOVE
  (removeStep.1, (cancelStep.2.1 ++ removeStep.2.1, removeStep.2.2))

/-- Embedding of BatteryManager.prototype.runCapacityRoutine of the
unchecked variant. -/
def V2.BatteryManager.runCapacityRoutine (api : DiagnosticsApi) : RunOutput :=
  thenNewRoutine (callEntryPoint api "runBatteryCapacityRoutine" [])

/-- Embedding of BatteryManager.prototype.runHealthRoutine of the unchecked
variant. -/
def V2.BatteryManager.runHealthRoutine (api : DiagnosticsApi) : RunOutput :=
  thenNewRoutine (callEntryPoint api "runBatteryHealthRoutine" [])

/-- Embedding of BatteryManager.prototype.runDischargeRoutine of the
unchecked variant. -/
def V2.BatteryManager.runDischargeRoutine (api : DiagnosticsApi)
    (params : JsVal) : RunOutput :=
  thenNewRoutine (callEntryPoint api "runBatteryDischargeRoutine" [params])

/-- Embedding of BatteryManager.prototype.runChargeRoutine of the unchecked
variant. -/
def V2.BatteryManager.runChargeRoutine (api : DiagnosticsApi)
    (params : JsVal) : RunOutput :=
  thenNewRoutine (callEntryPoint api "runBatteryChargeRoutine" [params])

/-- Embedding of CpuManager.prototype.runCacheRoutine of the unchecked
variant. -/
def V2.CpuManager.runCacheRoutine (api : DiagnosticsApi)
    (params : JsVal) : RunOutput :=
  thenNewRoutine (callEntryPoint api "runCpuCacheRoutine" [params])

/-- Embedding of CpuManager.prototype.runStressRoutine of the unchecked
variant. -/
def V2.CpuManager.runStressRoutine (api : DiagnosticsApi)
    (params : JsVal) : RunOutput :=
  thenNewRoutine (callEntryPoint api "runCpuStressRoutine" [params])

/-- Embedding of MemoryManager.prototype.runMemoryRoutine of the unchecked
variant. -/
def V2.MemoryManager.runMemoryRoutine (api : DiagnosticsApi) : RunOutput :=
  thenNewRoutine (callEntryPoint api "runMemoryRoutine" [])

/-- Embedding of DPSLDiagnosticsManager.prototype.getAvailableRoutines of
the unchecked variant. -/
def V2.DPSLDiagnosticsManager.getAvailableRoutines (api : DiagnosticsApi) :
    UpdateOutput :=
  callEntryPoint api "getAvailableRoutines" []

/-- Enumeration of the twelve capability-checked run-methods. -/
inductive RunMethod : Type where
  | batteryCapacity | batteryHealth | batteryDischarge | batteryCharge
  | cpuCache | cpuStress | cpuFloatingPointAccuracy | cpuPrimeSearch
  | memory
  | disk
  | nvmeSmartctl | nvmeWearLevel

/-- The external entry point each run-method requires. -/
def runMethodFn : RunMethod → String
  | RunMethod.batteryCapacity => "runBatteryCapacityRoutine"
  | RunMethod.batteryHealth => "runBatteryHealthRoutine"
  | RunMethod.batteryDischarge => "runBatteryDischargeRoutine"
  | RunMethod.batteryCharge => "runBatteryChargeRoutine"
  | RunMethod.cpuCache => "runCpuCacheRoutine"
  | RunMethod.cpuStress => "runCpuStressRoutine"
  | RunMethod.cpuFloatingPointAccuracy => "runCpuFloatingPointAccuracyRoutine"
  | RunMethod.cpuPrimeSearch => "runCpuPrimeSearchRoutine"
  | RunMethod.memory => "runMemoryRoutine"
  | RunMethod.disk => "runDiskReadRoutine"
  | RunMethod.nvmeSmartctl => "runSmartctlCheckRoutine"
  | RunMethod.nvmeWearLevel => "runNvmeWearLevelRoutine"

/-- The argument list each run-method passes to its entry point, given the
caller-supplied params value (empty for the parameterless methods). -/
def runMethodArgs : RunMethod → JsVal → List JsVal
  | RunMethod.batteryCapacity, _ => []
  | RunMethod.batteryHealth, _ => []
  | RunMethod.batteryDischarge, params => [params]
  | RunMethod.batteryCharge, params => [params]
  | RunMethod.cpuCache, params => [params]
  | RunMethod.cpuStress, params => [params]
  | RunMethod.cpuFloatingPointAccuracy, params => [params]
  | RunMethod.cpuPrimeSearch, params => [params]
  | RunMethod.memory, _ => []
  | RunMethod.disk, _ => []
  | RunMethod.nvmeSmartctl, _ => []
  | RunMethod.nvmeWearLevel, params => [params]

/-- Dispatch to the embedded capability-checked run-methods. -/
def invokeRunMethod (m : RunMethod) (api : DiagnosticsApi)
    (params : JsVal) : RunOutput :=
  match m with
  | RunMethod.batteryCapacity => BatteryManager.runCapacityRoutine api
  | RunMethod.batteryHealth => BatteryManager.runHealthRoutine api
  | RunMethod.batteryDischarge => BatteryManager.runDischargeRoutine api params
  | RunMethod.batteryCharge => BatteryManager.runChargeRoutine api params
  | RunMethod.cpuCache => CpuManager.runCacheRoutine api params
  | RunMethod.cpuStress => CpuManager.runStressRoutine api params
  | RunMethod.cpuFloatingPointAccuracy =>
      CpuManager.runFloatingPointAccuracyRoutine api params
  | RunMethod.cpuPrimeSearch => CpuManager.runPrimeSearchRoutine api params
  | RunMethod.memory => MemoryManager.runMemoryRoutine api
  | RunMethod.disk => DiskManager.runReadRoutine api
  | RunMethod.nvmeSmartctl => NvmeManager.runSmartctlCheckRoutine api
  | RunMethod.nvmeWearLevel => NvmeManager.runWearLevelRoutine api params

/-- Enumeration of the run-methods defined in both source variants. -/
inductive SharedRunMethod : Type where
  | batteryCapacity | batteryHealth | batteryDischarge | batteryCharge
  | cpuCache | cpuStress
  | memory

/-- Entry point of a shared run-method. -/
def sharedFn : SharedRunMethod → String
  | SharedRunMethod.batteryCapacity => "runBatteryCapacityRoutine"
  | SharedRunMethod.batteryHealth => "runBatteryHealthRoutine"
  | SharedRunMethod.batteryDischarge => "runBatteryDischargeRoutine"
  | SharedRunMethod.batteryCharge => "runBatteryChargeRoutine"
  | SharedRunMethod.cpuCache => "runCpuCacheRoutine"
  | SharedRunMethod.cpuStress => "runCpuStressRoutine"
  | SharedRunMethod.memory => "runMemoryRoutine"

/-- Dispatch to the capability-checked variant of a shared run-method. -/
def invokeShared (m : SharedRunMethod) (api : DiagnosticsApi)
    (params : JsVal) : RunOutput :=
  match m with
  | SharedRunMethod.batteryCapacity => BatteryManager.runCapacityRoutine api
  | SharedRunMethod.batteryHealth => BatteryManager.runHealthRoutine api
  | SharedRunMethod.batteryDischarge => BatteryManager.runDischargeRoutine api params
  | SharedRunMethod.batteryCharge => BatteryManager.runChargeRoutine api params
  | SharedRunMethod.cpuCache => CpuManager.runCacheRoutine api params
  | SharedRunMethod.cpuStress => CpuManager.runStressRoutine api params
  | SharedRunMethod.memory => MemoryManager.runMemoryRoutine api

/-- Dispatch to the unchecked variant of a shared run-method. -/
def invokeSharedV2 (m : SharedRunMethod) (api : DiagnosticsApi)
    (params : JsVal) : RunOutput :=
  match m with
  | SharedRunMethod.batteryCapacity => V2.BatteryManager.runCapacityRoutine api
  | SharedRunMethod.batteryHealth => V2.BatteryManager.runHealthRoutine api
  | SharedRunMethod.batteryDischarge => V2.BatteryManager.runDischargeRoutine api params
  | SharedRunMethod.batteryCharge => V2.BatteryManager.runChargeRoutine api params
  | SharedRunMethod.cpuCache => V2.CpuManager.runCacheRoutine api params
  | SharedRunMethod.cpuStress => V2.CpuManager.runStressRoutine api params
  | SharedRunMethod.memory => V2.MemoryManager.runMemoryRoutine api

/-- Enumeration of the public Routine handle operations. -/
inductive HandleOp : Type where
  | getStatusOp | resumeOp | stopOp

/-- The command whose external response a handle operation awaits (stop
awaits the remove response, its cancel response being discarded). -/
def handleOpAwaitedCommand : HandleOp → String
  | HandleOp.getStatusOp => "status"
  | HandleOp.resumeOp => "resume"
  | HandleOp.stopOp => "remove"

/-- Dispatch to the embedded handle operations. -/
def invokeHandleOp (op : HandleOp) (r : Routine) (api : DiagnosticsApi) :
    Routine × UpdateOutput :=
  match op with
  | HandleOp.getStatusOp => r.getStatus api
  | HandleOp.resumeOp => r.resume api
  | HandleOp.stopOp => r.stop api

/-- The handle state after one handle operation. -/
def applyHandleOp (api : DiagnosticsApi) (r : Routine) (op : HandleOp) :
    Routine :=
  (invokeHandleOp op r api).1

/-- The handle state after a sequence of handle operations. -/
def applyHandleOps (api : DiagnosticsApi) (r : Routine) :
    List HandleOp → Routine
  | [] => r
  | op :: rest => applyHandleOps api (applyHandleOp api r op) rest

/-- A chrome.os.diagnostics object exposing every entry point this library
uses, for concrete witnesses. -/
def fullDiagnosticsFields : List (String × JsVal) :=
  [("getRoutineUpdate", JsVal.fn "getRoutineUpdate"),
   ("getAvailableRoutines", JsVal.fn "getAvailableRoutines"),
   ("runBatteryCapacityRoutine", JsVal.fn "runBatteryCapacityRoutine"),
   ("runBatteryHealthRoutine", JsVal.fn "runBatteryHealthRoutine"),
   ("runBatteryDischargeRoutine", JsVal.fn "runBatteryDischargeRoutine"),
   ("runBatteryChargeRoutine", JsVal.fn "runBatteryChargeRoutine"),
   ("runCpuCacheRoutine", JsVal.fn "runCpuCacheRoutine"),
   ("runCpuStressRoutine", JsVal.fn "runCpuStressRoutine"),
   ("runCpuFloatingPointAccuracyRoutine", JsVal.fn "runCpuFloatingPointAccuracyRoutine"),
   ("runCpuPrimeSearchRoutine", JsVal.fn "runCpuPrimeSearchRoutine"),
   ("runMemoryRoutine", JsVal.fn "runMemoryRoutine"),
   ("runDiskReadRoutine", JsVal.fn "runDiskReadRoutine"),
   ("runSmartctlCheckRoutine", JsVal.fn "runSmartctlCheckRoutine"),
   ("runNvmeWearLevelRoutine", JsVal.fn "runNvmeWearLevelRoutine")]

/-- A concrete environment where every capability is present, routine runs
resolve with {id: 42} and routine updates resolve with the string ready. -/
def fullApi : DiagnosticsApi :=
  ⟨[("os", JsVal.obj [("diagnostics", JsVal.obj fullDiagnosticsFields)])],
   fun c =>
     if c.name == "getRoutineUpdate" then Outcome.resolved (JsVal.str "ready")
     else Outcome.resolved (JsVal.obj [("id", JsVal.num 42)])⟩

/-- A concrete environment whose chrome object has no os property at all. -/
def emptyApi : DiagnosticsApi :=
  ⟨[], fun _ => Outcome.resolved JsVal.undefined⟩

/-- A concrete environment where every capability is present but the backend
rejects every call. -/
def rejectingApi : DiagnosticsApi :=
  ⟨[("os", JsVal.obj [("diagnostics", JsVal.obj fullDiagnosticsFields)])],
   fun _ => Outcome.rejected (JsError.error "backend failure")⟩

/-- A concrete environment where every capability is present, the backend
rejects the cancel command but resolves every other routine update. -/
def cancelDiffApi : DiagnosticsApi :=
  ⟨[("os", JsVal.obj [("diagnostics", JsVal.obj fullDiagnosticsFields)])],
   fun c =>
     match c.args with
     | [JsVal.obj [(_, _), (_, JsVal.str "cancel")]] =>
         Outcome.rejected (JsError.error "cancel failed")
     | _ => Outcome.resolved (JsVal.str "removed")⟩

/-- Truthy values are neither undefined nor null, so property access on them
never throws. -/
theorem getProp_ok_of_truthy (v : JsVal) (n : String) (h : jsTruthy v = true) :
    ∃ w, getProp v n = Except.ok w := by
  cases v with
  | undefined => simp [jsTruthy] at h
  | null => simp [jsTruthy] at h
  | boolean b => exact ⟨JsVal.undefined, rfl⟩
  | num i => exact ⟨JsVal.undefined, rfl⟩
  | str s => exact ⟨JsVal.undefined, rfl⟩
  | fn f => exact ⟨JsVal.undefined, rfl⟩
  | obj fields => exact ⟨_, rfl⟩

/-- When property access throws, the thrown value is a native TypeError. -/
theorem getProp_error_typeError (v : JsVal) (n : String) (e : JsError)
    (h : getProp v n = Except.error e) : ∃ m, e = JsError.typeError m := by
  cases v <;> simp [getProp] at h
  case undefined => exact ⟨_, h.symm⟩
  case null => exact ⟨_, h.symm⟩

/-- When evaluating chrome.os.diagnostics[f] throws, the thrown value is a
native TypeError. -/
theorem lookupEntryPoint_error_typeError (chrome : JsVal) (fnName : String)
    (e : JsError) (h : lookupEntryPoint chrome fnName = Except.error e) :
    ∃ m, e = JsError.typeError m := by
  unfold lookupEntryPoint at h
  cases h1 : getProp chrome "os" with
  | error e1 =>
      simp only [h1, Except.error.injEq] at h
      obtain ⟨m, hm⟩ := getProp_error_typeError _ _ _ h1
      exact ⟨m, h ▸ hm⟩
  | ok os =>
      simp only [h1] at h
      cases h2 : getProp os "diagnostics" with
      | error e2 =>
          simp only [h2, Except.error.injEq] at h
          obtain ⟨m, hm⟩ := getProp_error_typeError _ _ _ h2
          exact ⟨m, h ▸ hm⟩
      | ok diagnostics =>
          simp only [h2] at h
          exact getProp_error_typeError _ _ _ h


/-- Property access on a plain object never throws; it yields the field
value or undefined. -/
theorem getProp_obj (fields : List (String × JsVal)) (n : String) :
    getProp (JsVal.obj fields) n =
      Except.ok ((fields.lookup n).getD JsVal.undefined) := rfl

/-- When the chrome global is an object, the capability probe never throws:
every execution path of the short-circuit conjunction produces a value. -/
theorem isSupported_obj_ok (fields : List (String × JsVal)) (fnName : String) :
    ∃ v, isSupported (JsVal.obj fields) fnName = Except.ok v := by
  unfold isSupported
  simp only [getProp_obj]
  cases h1 : jsTruthy ((fields.lookup "os").getD JsVal.undefined) with
  | false => exact ⟨_, rfl⟩
  | true =>
      obtain ⟨d, hd⟩ := getProp_ok_of_truthy _ "diagnostics" h1
      simp only [hd]
      cases h2 : jsTruthy d with
      | false => exact ⟨_, rfl⟩
      | true =>
          obtain ⟨f, hf⟩ := getProp_ok_of_truthy _ fnName h2
          simp only [hf]
          cases h3 : jsTruthy f with
          | false => exact ⟨_, rfl⟩
          | true => exact ⟨_, rfl⟩

/-- A true capability probe means isSupported produced a truthy value. -/
theorem isSupported_ok_true (api : DiagnosticsApi) (fnName : String)
    (h : supportedOn api fnName = true) :
    ∃ sup, isSupported api.chrome fnName = Except.ok sup ∧
      jsTruthy sup = true := by
  unfold supportedOn at h
  cases hs : isSupported api.chrome fnName with
  | error e => rw [hs] at h; exact Bool.noConfusion h
  | ok v => rw [hs] at h; exact ⟨v, rfl, h⟩

/-- A true capability probe means the entry point lookup yields a function
value. -/
theorem supportedOn_true_callable (api : DiagnosticsApi) (fnName : String)
    (h : supportedOn api fnName = true) :
    ∃ f, lookupEntryPoint api.chrome fnName = Except.ok f ∧
      isFunction f = true := by
  obtain ⟨sup, hs, ht⟩ := isSupported_ok_true api fnName h
  unfold isSupported at hs
  unfold lookupEntryPoint
  split at hs
  next e heq =>
      exact absurd heq (by simp [DiagnosticsApi.chrome, getProp_obj])
  next os heq =>
      split at hs
      next h1 =>
          split at hs
          next e2 heq2 =>
              obtain ⟨d, hd⟩ := getProp_ok_of_truthy os "diagnostics" h1
              rw [hd] at heq2
              exact Except.noConfusion heq2
          next d heq2 =>
              split at hs
              next h2 =>
                  split at hs
                  next e3 heq3 =>
                      obtain ⟨f, hf⟩ := getProp_ok_of_truthy d fnName h2
                      rw [hf] at heq3
                      exact Except.noConfusion heq3
                  next f heq3 =>
                      split at hs
                      next h3 =>
                          rw [Except.ok.injEq] at hs
                          refine ⟨f, heq3, ?_⟩
                          rw [← hs] at ht
                          simpa [jsTruthy] using ht
                      next h3 =>
                          rw [Except.ok.injEq] at hs
                          rw [hs] at h3
                          exact absurd ht h3
              next h2 =>
                  rw [Except.ok.injEq] at hs
                  rw [hs] at h2
                  exact absurd ht h2
      next h1 =>
          rw [Except.ok.injEq] at hs
          rw [hs] at h1
          exact absurd ht h1

/-- When the capability probe is true, calling the entry point issues
exactly one external call and adopts the backend outcome. -/
theorem callEntryPoint_supported (api : DiagnosticsApi) (fnName : String)
    (args : List JsVal) (h : supportedOn api fnName = true) :
    callEntryPoint api fnName args =
      ([⟨fnName, args⟩], api.respond ⟨fnName, args⟩) := by
  obtain ⟨f, hf, hfn⟩ := supportedOn_true_callable api fnName h
  unfold callEntryPoint
  simp only [hf, hfn, if_true]

/-- Conversely, when the entry point lookup finds a function value, the
capability probe is true. -/
theorem supportedOn_of_callable (api : DiagnosticsApi) (fnName : String)
    (f : JsVal) (hl : lookupEntryPoint api.chrome fnName = Except.ok f)
    (hf : isFunction f = true) : supportedOn api fnName = true := by
  unfold lookupEntryPoint at hl
  simp only [DiagnosticsApi.chrome, getProp_obj] at hl
  revert hl
  cases hos : (api.chromeFields.lookup "os").getD JsVal.undefined with
  | undefined => intro hl; simp [getProp] at hl
  | null => intro hl; simp [getProp] at hl
  | boolean b => intro hl; simp [getProp] at hl
  | num n => intro hl; simp [getProp] at hl
  | str s => intro hl; simp [getProp] at hl
  | fn g => intro hl; simp [getProp] at hl
  | obj osFields =>
      intro hl
      simp only [getProp_obj] at hl
      revert hl
      cases hd : (osFields.lookup "diagnostics").getD JsVal.undefined with
      | undefined => intro hl; simp [getProp] at hl
      | null => intro hl; simp [getProp] at hl
      | boolean b =>
          intro hl
          simp [getProp] at hl
          subst hl
          simp [isFunction] at hf
      | num n =>
          intro hl
          simp [getProp] at hl
          subst hl
          simp [isFunction] at hf
      | str s =>
          intro hl
          simp [getProp] at hl
          subst hl
          simp [isFunction] at hf
      | fn g =>
          intro hl
          simp [getProp] at hl
          subst hl
          simp [isFunction] at hf
      | obj dFields =>
          intro hl
          simp only [getProp_obj, Except.ok.injEq] at hl
          cases f with
          | fn g =>
              unfold supportedOn isSupported
              simp [DiagnosticsApi.chrome, getProp_obj, hos, hd, hl,
                jsTruthy, isFunction]
          | undefined => simp [isFunction] at hf
          | null => simp [isFunction] at hf
          | boolean b => simp [isFunction] at hf
          | num n => simp [isFunction] at hf
          | str s => simp [isFunction] at hf
          | obj o2 => simp [isFunction] at hf

/-- When the capability probe is false, calling the entry point directly
issues no external call and rejects with a native TypeError. -/
theorem callEntryPoint_unsupported (api : DiagnosticsApi) (fnName : String)
    (args : List JsVal) (h : supportedOn api fnName = false) :
    ∃ m, callEntryPoint api fnName args =
      ([], Outcome.rejected (JsError.typeError m)) := by
  unfold callEntryPoint
  cases hl : lookupEntryPoint api.chrome fnName with
  | error e =>
      obtain ⟨m, hm⟩ := lookupEntryPoint_error_typeError _ _ _ hl
      exact ⟨m, by rw [hm]⟩
  | ok f =>
      cases hfn : isFunction f with
      | true =>
          have hsup := supportedOn_of_callable api fnName f hl hfn
          rw [hsup] at h
          exact Bool.noConfusion h
      | false =>
          refine ⟨"chrome.os.diagnostics." ++ fnName ++ " is not a function", ?_⟩
          simp only [hfn]
          rfl

/-- A capability-checked run-method whose probe is false rejects locally
with the templated Error and issues no external call. -/
theorem checkedRun_unsupported (api : DiagnosticsApi) (fnName : String)
    (args : List JsVal) (h : supportedOn api fnName = false) :
    checkedRun api fnName args =
      ([], Outcome.rejected (JsError.error (getErrorMessage fnName))) := by
  unfold checkedRun
  obtain ⟨v, hv⟩ := isSupported_obj_ok api.chromeFields fnName
  have hv2 : isSupported api.chrome fnName = Except.ok v := hv
  have hfalse : jsTruthy v = false := by
    unfold supportedOn at h
    rw [hv2] at h
    exact h
  simp only [hv2, hfalse]
  rfl

/-- A capability-checked run-method whose probe is true reduces to the
wrapped external call. -/
theorem checkedRun_supported_call (api : DiagnosticsApi) (fnName : String)
    (args : List JsVal) (h : supportedOn api fnName = true) :
    checkedRun api fnName args =
      thenNewRoutine ([⟨fnName, args⟩], api.respond ⟨fnName, args⟩) := by
  obtain ⟨sup, hs, ht⟩ := isSupported_ok_true api fnName h
  unfold checkedRun
  simp only [hs, ht, if_true, callEntryPoint_supported api fnName args h]

/-- A supported run-method whose backend resolves with an object carrying an
id field resolves with a new Routine wrapping exactly that id. -/
theorem checkedRun_resolves_handle (api : DiagnosticsApi) (fnName : String)
    (args : List JsVal) (v k : JsVal)
    (h : supportedOn api fnName = true)
    (hr : api.respond ⟨fnName, args⟩ = Outcome.resolved v)
    (hk : getProp v "id" = Except.ok k) :
    checkedRun api fnName args =
      ([⟨fnName, args⟩], Outcome.resolved ⟨k⟩) := by
  rw [checkedRun_supported_call api fnName args h, hr]
  simp [thenNewRoutine, hk]

/-- A supported run-method whose backend rejects propagates that rejection
value unchanged. -/
theorem checkedRun_propagates (api : DiagnosticsApi) (fnName : String)
    (args : List JsVal) (e : JsError)
    (h : supportedOn api fnName = true)
    (hr : api.respond ⟨fnName, args⟩ = Outcome.rejected e) :
    checkedRun api fnName args = ([⟨fnName, args⟩], Outcome.rejected e) := by
  rw [checkedRun_supported_call api fnName args h, hr]
  simp [thenNewRoutine]

/-- When the capability probe is true, the checked and unchecked run-method
patterns agree. -/
theorem checkedRun_eq_uncheckedRun (api : DiagnosticsApi) (fnName : String)
    (args : List JsVal) (h : supportedOn api fnName = true) :
    checkedRun api fnName args = uncheckedRun api fnName args := by
  obtain ⟨sup, hs, ht⟩ := isSupported_ok_true api fnName h
  unfold checkedRun uncheckedRun
  simp only [hs, ht, if_true]

/-- An unchecked run-method whose probe would be false rejects with a native
TypeError and issues no external call. -/
theorem uncheckedRun_unsupported (api : DiagnosticsApi) (fnName : String)
    (args : List JsVal) (h : supportedOn api fnName = false) :
    ∃ m, uncheckedRun api fnName args =
      ([], Outcome.rejected (JsError.typeError m)) := by
  obtain ⟨m, hm⟩ := callEntryPoint_unsupported api fnName args h
  exact ⟨m, by simp [uncheckedRun, hm, thenNewRoutine]⟩

/-- A routine update command with the entry point present: one external
getRoutineUpdate call carrying {id, command}, outcome adopted from the
backend, handle state unchanged. -/
theorem getRoutineUpdate_eq (r : Routine) (api : DiagnosticsApi)
    (command : String) (h : supportedOn api "getRoutineUpdate" = true) :
    Routine._getRoutineUpdate r api command =
      (r, ([⟨"getRoutineUpdate",
             [JsVal.obj [("id", r.id), ("command", JsVal.str command)]]⟩],
          api.respond ⟨"getRoutineUpdate",
             [JsVal.obj [("id", r.id), ("command", JsVal.str command)]]⟩)) := by
  simp only [Routine._getRoutineUpdate]
  rw [callEntryPoint_supported api "getRoutineUpdate" _ h]

/-- Full reduction of stop(): the cancel request then the remove request,
with the remove outcome returned and the cancel outcome dropped. -/
theorem stop_eq (r : Routine) (api : DiagnosticsApi)
    (h : supportedOn api "getRoutineUpdate" = true) :
    Routine.stop r api =
      (r, ([⟨"getRoutineUpdate",
             [JsVal.obj [("id", r.id), ("command", JsVal.str "cancel")]]⟩,
            ⟨"getRoutineUpdate",
             [JsVal.obj [("id", r.id), ("command", JsVal.str "remove")]]⟩],
           api.respond ⟨"getRoutineUpdate",
             [JsVal.obj [("id", r.id), ("command", JsVal.str "remove")]]⟩)) := by
  have hc := getRoutineUpdate_eq r api "cancel" h
  have hr := getRoutineUpdate_eq r api "remove" h
  simp only [Routine.stop, ROUTINE_COMMAND_TYPE, hc, hr]
  rfl

/-- The character data of an append is the append of the character data. -/
theorem strDataAppend (a b : String) : (a ++ b).data = a.data ++ b.data := by
  cases a
  cases b
  rfl

/-- Strings with equal character data are equal. -/
theorem strOfData (a b : String) (h : a.data = b.data) : a = b := by
  cases a
  cases b
  exact congrArg String.mk h

/-- C1: for every handle with identifier k (with the getRoutineUpdate entry
point callable), stop() issues exactly two external getRoutineUpdate
requests, first {id: k, command: cancel} and then {id: k, command: remove};
the cancel outcome is discarded and the promise outcome is exactly the
backend response to the remove request, whatever the backend answers for
cancel. -/
theorem claim1_stop_cancel_then_remove (api : DiagnosticsApi) (k : JsVal)
    (h : supportedOn api "getRoutineUpdate" = true) :
    Routine.stop ⟨k⟩ api =
      (⟨k⟩,
       ([⟨"getRoutineUpdate",
           [JsVal.obj [("id", k), ("command", JsVal.str "cancel")]]⟩,
         ⟨"getRoutineUpdate",
           [JsVal.obj [("id", k), ("command", JsVal.str "remove")]]⟩],
        api.respond ⟨"getRoutineUpdate",
           [JsVal.obj [("id", k), ("command", JsVal.str "remove")]]⟩)) :=
  stop_eq ⟨k⟩ api h

/-- C1 witness: stop() on the handle with id 7 against a concrete
environment whose backend rejects the cancel request but resolves the remove
request; the two requests appear in order and the outcome is the remove
resolution. -/
theorem claim1_stop_cancel_then_remove_witness :
    supportedOn cancelDiffApi "getRoutineUpdate" = true ∧
    cancelDiffApi.respond ⟨"getRoutineUpdate",
        [JsVal.obj [("id", JsVal.num 7), ("command", JsVal.str "cancel")]]⟩ =
      Outcome.rejected (JsError.error "cancel failed") ∧
    Routine.stop ⟨JsVal.num 7⟩ cancelDiffApi =
      (⟨JsVal.num 7⟩,
       ([⟨"getRoutineUpdate",
           [JsVal.obj [("id", JsVal.num 7), ("command", JsVal.str "cancel")]]⟩,
         ⟨"getRoutineUpdate",
           [JsVal.obj [("id", JsVal.num 7), ("command", JsVal.str "remove")]]⟩],
        Outcome.resolved (JsVal.str "removed"))) :=
  ⟨rfl, rfl, claim1_stop_cancel_then_remove cancelDiffApi (JsVal.num 7) rfl⟩

/-- C4: for every handle with identifier k (with the getRoutineUpdate entry
point callable), getStatus() issues exactly one request {id: k, command:
status} and resolves with the backend response unmodified, and resume()
issues exactly one request {id: k, command: resume} likewise. -/
theorem claim4_getStatus_resume_requests (api : DiagnosticsApi) (k : JsVal)
    (h : supportedOn api "getRoutineUpdate" = true) :
    Routine.getStatus ⟨k⟩ api =
      (⟨k⟩,
       ([⟨"getRoutineUpdate",
           [JsVal.obj [("id", k), ("command", JsVal.str "status")]]⟩],
        api.respond ⟨"getRoutineUpdate",
           [JsVal.obj [("id", k), ("command", JsVal.str "status")]]⟩)) ∧
    Routine.resume ⟨k⟩ api =
      (⟨k⟩,
       ([⟨"getRoutineUpdate",
           [JsVal.obj [("id", k), ("command", JsVal.str "resume")]]⟩],
        api.respond ⟨"getRoutineUpdate",
           [JsVal.obj [("id", k), ("command", JsVal.str "resume")]]⟩)) :=
  ⟨getRoutineUpdate_eq ⟨k⟩ api "status" h,
   getRoutineUpdate_eq ⟨k⟩ api "resume" h⟩

/-- C4 witness: getStatus() and resume() on the handle with id 7 against the
fully supported environment issue exactly the status and resume requests and
return the backend resolution unchanged. -/
theorem claim4_getStatus_resume_requests_witness :
    supportedOn fullApi "getRoutineUpdate" = true ∧
    Routine.getStatus ⟨JsVal.num 7⟩ fullApi =
      (⟨JsVal.num 7⟩,
       ([⟨"getRoutineUpdate",
           [JsVal.obj [("id", JsVal.num 7), ("command", JsVal.str "status")]]⟩],
        Outcome.resolved (JsVal.str "ready"))) ∧
    Routine.resume ⟨JsVal.num 7⟩ fullApi =
      (⟨JsVal.num 7⟩,
       ([⟨"getRoutineUpdate",
           [JsVal.obj [("id", JsVal.num 7), ("command", JsVal.str "resume")]]⟩],
        Outcome.resolved (JsVal.str "ready"))) :=
  ⟨rfl, (claim4_getStatus_resume_requests fullApi (JsVal.num 7) rfl).1,
   (claim4_getStatus_resume_requests fullApi (JsVal.num 7) rfl).2⟩

/-- C8: the id attribute of a handle is fixed at construction; after any
sequence of getStatus, resume and stop operations the handle state carries
the same id it was constructed with, in every environment. -/
theorem claim8_handle_id_immutable (api : DiagnosticsApi) (r : Routine)
    (ops : List HandleOp) : (applyHandleOps api r ops).id = r.id := by
  induction ops generalizing r with
  | nil => rfl
  | cons op rest ih =>
      have hstep : applyHandleOp api r op = r := by
        cases op <;> rfl
      rw [applyHandleOps, hstep]
      exact ih r

/-- C9: when the chrome global is an object, the capability probe
isSupported is total: it never throws whatever the shape of chrome.os,
chrome.os.diagnostics or the named property, and it evaluates to a truthy
value only when the named entry point actually is a function, so every
absent or non-callable configuration yields a falsy result rather than an
exception. -/
theorem claim9_isSupported_total_safe (fields : List (String × JsVal))
    (fnName : String) :
    ∃ v, isSupported (JsVal.obj fields) fnName = Except.ok v ∧
      (jsTruthy v = true →
        ∃ f, lookupEntryPoint (JsVal.obj fields) fnName = Except.ok f ∧
          isFunction f = true) := by
  obtain ⟨v, hv⟩ := isSupported_obj_ok fields fnName
  refine ⟨v, hv, ?_⟩
  intro ht
  have hsup :
      supportedOn ⟨fields, fun _ => Outcome.resolved JsVal.undefined⟩ fnName
        = true := by
    unfold supportedOn
    have hv2 : isSupported
        (DiagnosticsApi.chrome ⟨fields, fun _ => Outcome.resolved JsVal.undefined⟩)
        fnName = Except.ok v := hv
    rw [hv2]
    exact ht
  exact supportedOn_true_callable
    ⟨fields, fun _ => Outcome.resolved JsVal.undefined⟩ fnName hsup

/-- C9 witness: the probe applied to a chrome object with no os namespace at
all, and to the full environment, both without throwing. -/
theorem claim9_isSupported_total_safe_witness :
    (∃ v, isSupported (JsVal.obj []) "runMemoryRoutine" = Except.ok v ∧
      (jsTruthy v = true →
        ∃ f, lookupEntryPoint (JsVal.obj []) "runMemoryRoutine" = Except.ok f ∧
          isFunction f = true)) ∧
    (∃ v, isSupported (JsVal.obj fullApi.chromeFields) "runMemoryRoutine"
        = Except.ok v ∧
      (jsTruthy v = true →
        ∃ f, lookupEntryPoint (JsVal.obj fullApi.chromeFields)
            "runMemoryRoutine" = Except.ok f ∧
          isFunction f = true)) :=
  ⟨claim9_isSupported_total_safe [] "runMemoryRoutine",
   claim9_isSupported_total_safe fullApi.chromeFields "runMemoryRoutine"⟩

/-- C2: every capability-checked run-method, called when its external entry
point is absent or not callable, rejects locally with the
unsupported-capability Error naming exactly that entry point and issues no
external call at all (empty trace: the backend is never invoked). -/
theorem claim2_run_unsupported_rejects_locally (m : RunMethod)
    (api : DiagnosticsApi) (params : JsVal)
    (h : supportedOn api (runMethodFn m) = false) :
    invokeRunMethod m api params =
      ([], Outcome.rejected (JsError.error (getErrorMessage (runMethodFn m)))) := by
  cases m with
  | batteryCapacity => exact checkedRun_unsupported api "runBatteryCapacityRoutine" [] h
  | batteryHealth => exact checkedRun_unsupported api "runBatteryHealthRoutine" [] h
  | batteryDischarge => exact checkedRun_unsupported api "runBatteryDischargeRoutine" [params] h
  | batteryCharge => exact checkedRun_unsupported api "runBatteryChargeRoutine" [params] h
  | cpuCache => exact checkedRun_unsupported api "runCpuCacheRoutine" [params] h
  | cpuStress => exact checkedRun_unsupported api "runCpuStressRoutine" [params] h
  | cpuFloatingPointAccuracy => exact checkedRun_unsupported api "runCpuFloatingPointAccuracyRoutine" [params] h
  | cpuPrimeSearch => exact checkedRun_unsupported api "runCpuPrimeSearchRoutine" [params] h
  | memory => exact checkedRun_unsupported api "runMemoryRoutine" [] h
  | disk => exact checkedRun_unsupported api "runDiskReadRoutine" [] h
  | nvmeSmartctl => exact checkedRun_unsupported api "runSmartctlCheckRoutine" [] h
  | nvmeWearLevel => exact checkedRun_unsupported api "runNvmeWearLevelRoutine" [params] h

/-- C2 witness: the memory run-method against a chrome object with no os
namespace rejects locally with the templated Error and an empty call
trace. -/
theorem claim2_run_unsupported_rejects_locally_witness :
    supportedOn emptyApi "runMemoryRoutine" = false ∧
    MemoryManager.runMemoryRoutine emptyApi =
      ([], Outcome.rejected (JsError.error (getErrorMessage "runMemoryRoutine"))) :=
  ⟨rfl, claim2_run_unsupported_rejects_locally RunMethod.memory emptyApi
    JsVal.undefined rfl⟩

/-- C3: every run-method whose backend resolves with an object whose id
field is k resolves with a RoutineHandle whose id equals k (and issues
exactly the one external run call). -/
theorem claim3_run_wraps_backend_id (m : RunMethod) (api : DiagnosticsApi)
    (params v k : JsVal)
    (hs : supportedOn api (runMethodFn m) = true)
    (hr : api.respond ⟨runMethodFn m, runMethodArgs m params⟩ =
      Outcome.resolved v)
    (hk : getProp v "id" = Except.ok k) :
    invokeRunMethod m api params =
      ([⟨runMethodFn m, runMethodArgs m params⟩], Outcome.resolved ⟨k⟩) := by
  cases m with
  | batteryCapacity => exact checkedRun_resolves_handle api "runBatteryCapacityRoutine" [] v k hs hr hk
  | batteryHealth => exact checkedRun_resolves_handle api "runBatteryHealthRoutine" [] v k hs hr hk
  | batteryDischarge => exact checkedRun_resolves_handle api "runBatteryDischargeRoutine" [params] v k hs hr hk
  | batteryCharge => exact checkedRun_resolves_handle api "runBatteryChargeRoutine" [params] v k hs hr hk
  | cpuCache => exact checkedRun_resolves_handle api "runCpuCacheRoutine" [params] v k hs hr hk
  | cpuStress => exact checkedRun_resolves_handle api "runCpuStressRoutine" [params] v k hs hr hk
  | cpuFloatingPointAccuracy => exact checkedRun_resolves_handle api "runCpuFloatingPointAccuracyRoutine" [params] v k hs hr hk
  | cpuPrimeSearch => exact checkedRun_resolves_handle api "runCpuPrimeSearchRoutine" [params] v k hs hr hk
  | memory => exact checkedRun_resolves_handle api "runMemoryRoutine" [] v k hs hr hk
  | disk => exact checkedRun_resolves_handle api "runDiskReadRoutine" [] v k hs hr hk
  | nvmeSmartctl => exact checkedRun_resolves_handle api "runSmartctlCheckRoutine" [] v k hs hr hk
  | nvmeWearLevel => exact checkedRun_resolves_handle api "runNvmeWearLevelRoutine" [params] v k hs hr hk

/-- C3 witness: the backend resolves runBatteryCapacityRoutine with
{id: 42}; the battery capacity run-method returns a handle with id 42. -/
theorem claim3_run_wraps_backend_id_witness :
    supportedOn fullApi "runBatteryCapacityRoutine" = true ∧
    fullApi.respond ⟨"runBatteryCapacityRoutine", []⟩ =
      Outcome.resolved (JsVal.obj [("id", JsVal.num 42)]) ∧
    BatteryManager.runCapacityRoutine fullApi =
      ([⟨"runBatteryCapacityRoutine", []⟩],
       Outcome.resolved ⟨JsVal.num 42⟩) :=
  ⟨rfl, rfl,
   claim3_run_wraps_backend_id RunMethod.batteryCapacity fullApi
     JsVal.undefined (JsVal.obj [("id", JsVal.num 42)]) (JsVal.num 42)
     rfl rfl rfl⟩

/-- C5: the unsupported-capability message comes from the one fixed
template: for every entry point name it contains that name, contains the
substring "not found", and suggests a platform update (contains "Consider
updating Google Chrome"); and when runMemoryRoutine is absent the memory
run-method rejects with exactly the template message for runMemoryRoutine,
never contacting the backend. -/
theorem claim5_error_message_template (api : DiagnosticsApi)
    (fnName : String) :
    (∃ a b, getErrorMessage fnName = a ++ fnName ++ b) ∧
    (∃ a b, getErrorMessage fnName = a ++ "not found" ++ b) ∧
    (∃ a b, getErrorMessage fnName = a ++ "Consider updating Google Chrome" ++ b) ∧
    (supportedOn api "runMemoryRoutine" = false →
      MemoryManager.runMemoryRoutine api =
        ([], Outcome.rejected (JsError.error (getErrorMessage "runMemoryRoutine")))) := by
  refine ⟨⟨"DPSL: chrome.os.diagnostics.",
           "() is not found. Consider updating Google Chrome.", ?_⟩,
          ⟨"DPSL: chrome.os.diagnostics." ++ fnName ++ "() is ",
           ". Consider updating Google Chrome.", ?_⟩,
          ⟨"DPSL: chrome.os.diagnostics." ++ fnName ++ "() is not found. ",
           ".", ?_⟩,
          fun h => checkedRun_unsupported api "runMemoryRoutine" [] h⟩
  · apply strOfData
    simp only [getErrorMessage, strDataAppend, List.append_assoc]
    rw [(by decide :
      "() is not found.".data ++ " Consider updating Google Chrome.".data =
        "() is not found. Consider updating Google Chrome.".data)]
  · apply strOfData
    simp only [getErrorMessage, strDataAppend, List.append_assoc]
    rw [(by decide :
      "() is ".data ++ ("not found".data ++ ". Consider updating Google Chrome.".data) =
        "() is not found.".data ++ " Consider updating Google Chrome.".data)]
  · apply strOfData
    simp only [getErrorMessage, strDataAppend, List.append_assoc]
    rw [(by decide :
      "() is not found. ".data ++ ("Consider updating Google Chrome".data ++ ".".data) =
        "() is not found.".data ++ " Consider updating Google Chrome.".data)]

/-- C5 witness: the template instantiated at runMemoryRoutine contains the
name and the substring "not found", and the memory run-method against the
capability-free environment rejects with exactly that message. -/
theorem claim5_error_message_template_witness :
    (∃ a b, getErrorMessage "runMemoryRoutine" = a ++ "runMemoryRoutine" ++ b) ∧
    (∃ a b, getErrorMessage "runMemoryRoutine" = a ++ "not found" ++ b) ∧
    MemoryManager.runMemoryRoutine emptyApi =
      ([], Outcome.rejected (JsError.error (getErrorMessage "runMemoryRoutine"))) :=
  ⟨(claim5_error_message_template emptyApi "runMemoryRoutine").1,
   (claim5_error_message_template emptyApi "runMemoryRoutine").2.1,
   (claim5_error_message_template emptyApi "runMemoryRoutine").2.2.2 rfl⟩

/-- C6: with the required capability present, every run-method and every
handle operation propagates a backend rejection to the caller unchanged: the
operation settles with exactly the rejection value the external call
produced, with no wrapping, translation, retry or substitute error. -/
theorem claim6_backend_rejection_propagates (api : DiagnosticsApi)
    (e : JsError) :
    (∀ (m : RunMethod) (params : JsVal),
      supportedOn api (runMethodFn m) = true →
      api.respond ⟨runMethodFn m, runMethodArgs m params⟩ =
        Outcome.rejected e →
      invokeRunMethod m api params =
        ([⟨runMethodFn m, runMethodArgs m params⟩], Outcome.rejected e)) ∧
    (∀ (op : HandleOp) (k : JsVal),
      supportedOn api "getRoutineUpdate" = true →
      api.respond ⟨"getRoutineUpdate",
        [JsVal.obj [("id", k),
          ("command", JsVal.str (handleOpAwaitedCommand op))]]⟩ =
        Outcome.rejected e →
      (invokeHandleOp op ⟨k⟩ api).2.2 = Outcome.rejected e) := by
  constructor
  · intro m params hs hr
    cases m with
    | batteryCapacity => exact checkedRun_propagates api "runBatteryCapacityRoutine" [] e hs hr
    | batteryHealth => exact checkedRun_propagates api "runBatteryHealthRoutine" [] e hs hr
    | batteryDischarge => exact checkedRun_propagates api "runBatteryDischargeRoutine" [params] e hs hr
    | batteryCharge => exact checkedRun_propagates api "runBatteryChargeRoutine" [params] e hs hr
    | cpuCache => exact checkedRun_propagates api "runCpuCacheRoutine" [params] e hs hr
    | cpuStress => exact checkedRun_propagates api "runCpuStressRoutine" [params] e hs hr
    | cpuFloatingPointAccuracy => exact checkedRun_propagates api "runCpuFloatingPointAccuracyRoutine" [params] e hs hr
    | cpuPrimeSearch => exact checkedRun_propagates api "runCpuPrimeSearchRoutine" [params] e hs hr
    | memory => exact checkedRun_propagates api "runMemoryRoutine" [] e hs hr
    | disk => exact checkedRun_propagates api "runDiskReadRoutine" [] e hs hr
    | nvmeSmartctl => exact checkedRun_propagates api "runSmartctlCheckRoutine" [] e hs hr
    | nvmeWearLevel => exact checkedRun_propagates api "runNvmeWearLevelRoutine" [params] e hs hr
  · intro op k hs hr
    cases op with
    | getStatusOp =>
        have h1 : invokeHandleOp HandleOp.getStatusOp ⟨k⟩ api =
            (⟨k⟩,
             ([⟨"getRoutineUpdate",
                 [JsVal.obj [("id", k), ("command", JsVal.str "status")]]⟩],
              api.respond ⟨"getRoutineUpdate",
                 [JsVal.obj [("id", k), ("command", JsVal.str "status")]]⟩)) :=
          getRoutineUpdate_eq ⟨k⟩ api "status" hs
        rw [h1]
        exact hr
    | resumeOp =>
        have h1 : invokeHandleOp HandleOp.resumeOp ⟨k⟩ api =
            (⟨k⟩,
             ([⟨"getRoutineUpdate",
                 [JsVal.obj [("id", k), ("command", JsVal.str "resume")]]⟩],
              api.respond ⟨"getRoutineUpdate",
                 [JsVal.obj [("id", k), ("command", JsVal.str "resume")]]⟩)) :=
          getRoutineUpdate_eq ⟨k⟩ api "resume" hs
        rw [h1]
        exact hr
    | stopOp =>
        have h1 : invokeHandleOp HandleOp.stopOp ⟨k⟩ api =
            (⟨k⟩,
             ([⟨"getRoutineUpdate",
                 [JsVal.obj [("id", k), ("command", JsVal.str "cancel")]]⟩,
               ⟨"getRoutineUpdate",
                 [JsVal.obj [("id", k), ("command", JsVal.str "remove")]]⟩],
              api.respond ⟨"getRoutineUpdate",
                 [JsVal.obj [("id", k), ("command", JsVal.str "remove")]]⟩)) :=
          stop_eq ⟨k⟩ api hs
        rw [h1]
        exact hr

/-- C6 witness: against an environment whose backend rejects every call with
the same Error, the battery capacity run-method and getStatus() both settle
with exactly that rejection value. -/
theorem claim6_backend_rejection_propagates_witness :
    BatteryManager.runCapacityRoutine rejectingApi =
      ([⟨"runBatteryCapacityRoutine", []⟩],
       Outcome.rejected (JsError.error "backend failure")) ∧
    (Routine.getStatus ⟨JsVal.num 7⟩ rejectingApi).2.2 =
      Outcome.rejected (JsError.error "backend failure") :=
  ⟨(claim6_backend_rejection_propagates rejectingApi
      (JsError.error "backend failure")).1 RunMethod.batteryCapacity
      JsVal.undefined rfl rfl,
   (claim6_backend_rejection_propagates rejectingApi
      (JsError.error "backend failure")).2 HandleOp.getStatusOp
      (JsVal.num 7) rfl rfl⟩

/-- C7: getAvailableRoutines() with the capability present issues exactly
one argument-free external getAvailableRoutines call and resolves with the
backend result verbatim; with the capability absent it rejects locally with
the unsupported-capability Error and an empty call trace. -/
theorem claim7_getAvailableRoutines_forwarding (api : DiagnosticsApi) :
    (supportedOn api "getAvailableRoutines" = true →
      DPSLDiagnosticsManager.getAvailableRoutines api =
        ([⟨"getAvailableRoutines", []⟩],
         api.respond ⟨"getAvailableRoutines", []⟩)) ∧
    (supportedOn api "getAvailableRoutines" = false →
      DPSLDiagnosticsManager.getAvailableRoutines api =
        ([], Outcome.rejected
          (JsError.error (getErrorMessage "getAvailableRoutines")))) := by
  constructor
  · intro h
    obtain ⟨sup, hs, ht⟩ := isSupported_ok_true api "getAvailableRoutines" h
    simp only [DPSLDiagnosticsManager.getAvailableRoutines]
    simp only [hs, ht, if_true,
      callEntryPoint_supported api "getAvailableRoutines" [] h]
  · intro h
    obtain ⟨v, hv⟩ := isSupported_obj_ok api.chromeFields "getAvailableRoutines"
    have hv2 : isSupported api.chrome "getAvailableRoutines" = Except.ok v := hv
    have hfalse : jsTruthy v = false := by
      unfold supportedOn at h
      rw [hv2] at h
      exact h
    simp only [DPSLDiagnosticsManager.getAvailableRoutines]
    simp only [hv2, hfalse]
    rfl

/-- C7 witness: the enumeration method forwards verbatim in the full
environment and rejects locally in the capability-free environment. -/
theorem claim7_getAvailableRoutines_forwarding_witness :
    DPSLDiagnosticsManager.getAvailableRoutines fullApi =
      ([⟨"getAvailableRoutines", []⟩],
       Outcome.resolved (JsVal.obj [("id", JsVal.num 42)])) ∧
    DPSLDiagnosticsManager.getAvailableRoutines emptyApi =
      ([], Outcome.rejected
        (JsError.error (getErrorMessage "getAvailableRoutines"))) :=
  ⟨(claim7_getAvailableRoutines_forwarding fullApi).1 rfl,
   (claim7_getAvailableRoutines_forwarding emptyApi).2 rfl⟩

/-- C10: for every operation defined in both source variants (the four
battery run-methods, the CPU cache and stress run-methods, the memory
run-method, getAvailableRoutines, and the three handle operations), when the
required entry point is present and callable the capability-checked and
unchecked variants are observationally equivalent: identical external call
traces and identical settled outcomes; the variants differ only when the
entry point is absent, where only the checked variant produces the local
descriptive rejection while the unchecked variant rejects with a native
TypeError. -/
theorem claim10_variants_equivalent (api : DiagnosticsApi) (params : JsVal)
    (r : Routine) :
    (∀ m : SharedRunMethod, supportedOn api (sharedFn m) = true →
      invokeShared m api params = invokeSharedV2 m api params) ∧
    (supportedOn api "getAvailableRoutines" = true →
      DPSLDiagnosticsManager.getAvailableRoutines api =
        V2.DPSLDiagnosticsManager.getAvailableRoutines api) ∧
    (V2.Routine.getStatus r api = Routine.getStatus r api) ∧
    (V2.Routine.resume r api = Routine.resume r api) ∧
    (V2.Routine.stop r api = Routine.stop r api) ∧
    (∀ m : SharedRunMethod, supportedOn api (sharedFn m) = false →
      invokeShared m api params =
        ([], Outcome.rejected (JsError.error (getErrorMessage (sharedFn m)))) ∧
      ∃ msg, invokeSharedV2 m api params =
        ([], Outcome.rejected (JsError.typeError msg))) ∧
    (supportedOn api "getAvailableRoutines" = false →
      DPSLDiagnosticsManager.getAvailableRoutines api =
        ([], Outcome.rejected
          (JsError.error (getErrorMessage "getAvailableRoutines"))) ∧
      ∃ msg, V2.DPSLDiagnosticsManager.getAvailableRoutines api =
        ([], Outcome.rejected (JsError.typeError msg))) := by
  refine ⟨?_, ?_, rfl, rfl, rfl, ?_, ?_⟩
  · intro m h
    cases m with
    | batteryCapacity => exact checkedRun_eq_uncheckedRun api "runBatteryCapacityRoutine" [] h
    | batteryHealth => exact checkedRun_eq_uncheckedRun api "runBatteryHealthRoutine" [] h
    | batteryDischarge => exact checkedRun_eq_uncheckedRun api "runBatteryDischargeRoutine" [params] h
    | batteryCharge => exact checkedRun_eq_uncheckedRun api "runBatteryChargeRoutine" [params] h
    | cpuCache => exact checkedRun_eq_uncheckedRun api "runCpuCacheRoutine" [params] h
    | cpuStress => exact checkedRun_eq_uncheckedRun api "runCpuStressRoutine" [params] h
    | memory => exact checkedRun_eq_uncheckedRun api "runMemoryRoutine" [] h
  · intro h
    obtain ⟨sup, hs, ht⟩ := isSupported_ok_true api "getAvailableRoutines" h
    simp only [DPSLDiagnosticsManager.getAvailableRoutines,
      V2.DPSLDiagnosticsManager.getAvailableRoutines]
    simp only [hs, ht, if_true]
  · intro m h
    cases m with
    | batteryCapacity => exact ⟨checkedRun_unsupported api "runBatteryCapacityRoutine" [] h,
        uncheckedRun_unsupported api "runBatteryCapacityRoutine" [] h⟩
    | batteryHealth => exact ⟨checkedRun_unsupported api "runBatteryHealthRoutine" [] h,
        uncheckedRun_unsupported api "runBatteryHealthRoutine" [] h⟩
    | batteryDischarge => exact ⟨checkedRun_unsupported api "runBatteryDischargeRoutine" [params] h,
        uncheckedRun_unsupported api "runBatteryDischargeRoutine" [params] h⟩
    | batteryCharge => exact ⟨checkedRun_unsupported api "runBatteryChargeRoutine" [params] h,
        uncheckedRun_unsupported api "runBatteryChargeRoutine" [params] h⟩
    | cpuCache => exact ⟨checkedRun_unsupported api "runCpuCacheRoutine" [params] h,
        uncheckedRun_unsupported api "runCpuCacheRoutine" [params] h⟩
    | cpuStress => exact ⟨checkedRun_unsupported api "runCpuStressRoutine" [params] h,
        uncheckedRun_unsupported api "runCpuStressRoutine" [params] h⟩
    | memory => exact ⟨checkedRun_unsupported api "runMemoryRoutine" [] h,
        uncheckedRun_unsupported api "runMemoryRoutine" [] h⟩
  · intro h
    obtain ⟨v, hv⟩ := isSupported_obj_ok api.chromeFields "getAvailableRoutines"
    have hv2 : isSupported api.chrome "getAvailableRoutines" = Except.ok v := hv
    have hfalse : jsTruthy v = false := by
      unfold supportedOn at h
      rw [hv2] at h
      exact h
    constructor
    · simp only [DPSLDiagnosticsManager.getAvailableRoutines]
      simp only [hv2, hfalse]
      rfl
    · obtain ⟨m, hm⟩ := callEntryPoint_unsupported api "getAvailableRoutines" [] h
      exact ⟨m, hm⟩

/-- C10 witness: equivalence of the two variants at the full environment
(battery capacity run, enumeration, stop), and their divergence at the
capability-free environment, where only the checked variant produces the
descriptive rejection. -/
theorem claim10_variants_equivalent_witness :
    (BatteryManager.runCapacityRoutine fullApi =
      V2.BatteryManager.runCapacityRoutine fullApi) ∧
    (DPSLDiagnosticsManager.getAvailableRoutines fullApi =
      V2.DPSLDiagnosticsManager.getAvailableRoutines fullApi) ∧
    (V2.Routine.stop ⟨JsVal.num 7⟩ fullApi =
      Routine.stop ⟨JsVal.num 7⟩ fullApi) ∧
    (MemoryManager.runMemoryRoutine emptyApi =
      ([], Outcome.rejected (JsError.error (getErrorMessage "runMemoryRoutine"))) ∧
     ∃ msg, V2.MemoryManager.runMemoryRoutine emptyApi =
       ([], Outcome.rejected (JsError.typeError msg))) :=
  ⟨(claim10_variants_equivalent fullApi JsVal.undefined ⟨JsVal.num 7⟩).1
      SharedRunMethod.batteryCapacity rfl,
   (claim10_variants_equivalent fullApi JsVal.undefined ⟨JsVal.num 7⟩).2.1 rfl,
   (claim10_variants_equivalent fullApi JsVal.undefined ⟨JsVal.num 7⟩).2.2.2.2.1,
   (claim10_variants_equivalent emptyApi JsVal.undefined ⟨JsVal.num 7⟩).2.2.2.2.2.1
      SharedRunMethod.memory rfl⟩
